import Mathlib

/-
Verification of the SpeedTest-MultiProtocol client against its design
specification.  The JavaScript classes `WebRTCSpeedTest`, `UDPSpeedTest`,
`WebRTCSpeedTestIntegration` and `MultiProtocolSpeedTest` are embedded
shallowly: numbers are rationals, the IEEE-754 outcomes of division by
zero are made explicit by the `JSNum` type, fallible phases return
`Except`, and the mutable per-test state is passed explicitly.
-/

/-- The three transport kinds of the multi-protocol engine. -/
inductive Protocol where
  | udp
  | webrtc
  | http
  deriving DecidableEq, Repr

/-- A JavaScript number as produced by the speed computations: a finite
rational, one of the two infinities, or NaN. -/
inductive JSNum where
  | fin (q : ℚ)
  | posInf
  | negInf
  | nan
  deriving DecidableEq, Repr

/-- JavaScript division of two finite numbers: division by zero yields
NaN when the numerator is zero and a signed infinity otherwise. -/
def jsDiv (a b : ℚ) : JSNum :=
  if b = 0 then
    if a = 0 then JSNum.nan
    else if 0 < a then JSNum.posInf
    else JSNum.negInf
  else JSNum.fin (a / b)

/-- JavaScript division of a possibly non-finite number by a finite one. -/
def jsDivNum (x : JSNum) (c : ℚ) : JSNum :=
  match x with
  | JSNum.fin a => jsDiv a c
  | JSNum.posInf => if c < 0 then JSNum.negInf else JSNum.posInf
  | JSNum.negInf => if c < 0 then JSNum.posInf else JSNum.negInf
  | JSNum.nan => JSNum.nan

namespace WebRTCSpeedTest

/-- The `downloadStats` record of the `WebRTCSpeedTest` class. -/
structure DownloadStats where
  startTime : ℚ
  bytesReceived : ℕ
  packetsReceived : ℕ
  deriving DecidableEq, Repr

/-- The `uploadStats` record of the `WebRTCSpeedTest` class. -/
structure UploadStats where
  startTime : ℚ
  bytesSent : ℕ
  packetsSent : ℕ
  deriving DecidableEq, Repr

/-- The mutable fields of a `WebRTCSpeedTest` instance that the test
phases read and write. -/
structure State where
  isTestRunning : Bool
  downloadStats : DownloadStats
  uploadStats : UploadStats
  deriving DecidableEq, Repr

/-- The body of `handleIncomingData`: a payload of `byteLength` bytes is
counted only while `isTestRunning` holds; otherwise the method returns at
once and the state is untouched. -/
def handleIncomingData (byteLength : ℕ) (s : State) : State :=
  if !s.isTestRunning then s
  else
    { s with downloadStats :=
      { s.downloadStats with
        bytesReceived := s.downloadStats.bytesReceived + byteLength
        packetsReceived := s.downloadStats.packetsReceived + 1 } }

/-- The speed computation shared by `stopDownloadTest`, `stopUploadTest`
and the progress updaters:
`(bytes * 8) / (durationMs / 1000) / 1000000`, with JavaScript division
semantics. -/
def speedMbpsOf (bytes : ℕ) (durationMs : ℚ) : JSNum :=
  jsDivNum (jsDiv ((bytes : ℚ) * 8) (durationMs / 1000)) 1000000

/-- The body of `stopDownloadTest` at time `now`: clears `isTestRunning`
and reports the speed computed from the bytes received since
`downloadStats.startTime`. -/
def stopDownloadTest (now : ℚ) (s : State) : State × JSNum :=
  ({ s with isTestRunning := false },
    speedMbpsOf s.downloadStats.bytesReceived (now - s.downloadStats.startTime))

/-- The body of `stopUploadTest` at time `now`: clears `isTestRunning`
and reports the speed computed from the bytes sent since
`uploadStats.startTime`. -/
def stopUploadTest (now : ℚ) (s : State) : State × JSNum :=
  ({ s with isTestRunning := false },
    speedMbpsOf s.uploadStats.bytesSent (now - s.uploadStats.startTime))

/-- One download phase as `startDownloadTest`/`stopDownloadTest` run it:
`requestTime` is `performance.now()` recorded when `startDownloadTest`
resets `downloadStats` (before the request is sent to the server),
`arrivals` are the received payloads with their arrival times, and
`stopTime` is when `stopDownloadTest` fires. -/
structure DownloadRun where
  requestTime : ℚ
  arrivals : List (ℚ × ℕ)
  stopTime : ℚ
  deriving DecidableEq, Repr

/-- Total number of payload bytes received during a download run. -/
def totalBytes (r : DownloadRun) : ℕ :=
  (r.arrivals.map Prod.snd).sum

/-- The `speedMbps` that `stopDownloadTest` reports for a download run:
the elapsed time is `stopTime - requestTime`, anchored at the moment the
phase was requested. -/
def reportedDownloadMbps (r : DownloadRun) : JSNum :=
  speedMbpsOf (totalBytes r) (r.stopTime - r.requestTime)

/-- Modelled from the spec: the invariant's throughput with
`elapsedSeconds` measured from the first byte received in the phase,
`(totalBytes * 8) / (elapsedSeconds * 1_000_000)`; undefined when no
byte arrived. -/
def specFirstByteMbps (r : DownloadRun) : Option ℚ :=
  match r.arrivals with
  | [] => none
  | (t, _) :: _ =>
    some (((totalBytes r : ℚ) * 8) / (((r.stopTime - t) / 1000) * 1000000))

/-- One upload phase as `startUploadTest`/`stopUploadTest` run it:
`requestTime` is `performance.now()` recorded when `startUploadTest`
resets `uploadStats` (before the first payload is sent), `sends` are the
sent payloads with their send times, and `stopTime` is when
`stopUploadTest` fires. -/
structure UploadRun where
  requestTime : ℚ
  sends : List (ℚ × ℕ)
  stopTime : ℚ
  deriving DecidableEq, Repr

/-- Total number of payload bytes sent during an upload run. -/
def totalBytesSent (r : UploadRun) : ℕ :=
  (r.sends.map Prod.snd).sum

/-- The `speedMbps` that `stopUploadTest` reports for an upload run: the
elapsed time is `stopTime - requestTime`, anchored at the moment the
phase was requested. -/
def reportedUploadMbps (r : UploadRun) : JSNum :=
  speedMbpsOf (totalBytesSent r) (r.stopTime - r.requestTime)

end WebRTCSpeedTest

namespace UDPSpeedTest

/-- The jitter loop of `calculateJitter`: the absolute differences of
consecutive samples, `|samples[i] - samples[i-1]|` for `i = 1 .. n-1`. -/
def absDiffs : List ℚ → List ℚ
  | [] => []
  | [_] => []
  | a :: b :: rest => |b - a| :: absDiffs (b :: rest)

/-- The body of `UDPSpeedTest.calculateJitter`: `0` when fewer than two
samples exist, otherwise the sum of consecutive absolute differences
divided by `samples.length - 1`. -/
def calculateJitter (samples : List ℚ) : ℚ :=
  if samples.length < 2 then 0
  else (absDiffs samples).sum / ((samples.length : ℚ) - 1)

/-- The result object `startPingTest` resolves with. -/
structure PingResults where
  average : ℚ
  jitter : ℚ
  samples : List ℚ
  deriving DecidableEq, Repr

/-- The latency samples the ping loop accumulates: one `sendUDPPing`
reply per iteration, with `none` (a lost or timed-out ping) skipped. -/
def collectedSamples (replies : List (Option ℚ)) : List ℚ :=
  replies.filterMap id

/-- The body of `startPingTest`, parametrised by the reply of each of
the pings the loop sends: with at least one successful reply it resolves
with average, jitter and samples; with none it throws. -/
def startPingTest (replies : List (Option ℚ)) : Except String PingResults :=
  let pingResults := collectedSamples replies
  if 0 < pingResults.length then
    Except.ok
      { average := pingResults.foldl (fun a b => a + b) 0 / (pingResults.length : ℚ)
        jitter := calculateJitter pingResults
        samples := pingResults }
  else Except.error "No successful ping responses received"

end UDPSpeedTest

namespace WebRTCSpeedTestIntegration

/-- The body of `WebRTCSpeedTestIntegration.calculateJitter`, identical
to the copy in `UDPSpeedTest`: `0` below two samples, otherwise the mean
of consecutive absolute differences. -/
def calculateJitter (pingSamples : List ℚ) : ℚ :=
  if pingSamples.length < 2 then 0
  else (UDPSpeedTest.absDiffs pingSamples).sum / ((pingSamples.length : ℚ) - 1)

end WebRTCSpeedTestIntegration

namespace MultiProtocolSpeedTest

/-- The value of the `currentProtocol` field: the string `auto` or one
of the three concrete protocol names. -/
inductive ProtoChoice where
  | auto
  | proto (p : Protocol)
  deriving DecidableEq, Repr

/-- The body of `getSelectedProtocol`: under `auto` it picks `udp` when
available, else `webrtc` when available, else `http`; a concrete choice
is returned unchanged. -/
def getSelectedProtocol (currentProtocol : ProtoChoice)
    (availableProtocols : List Protocol) : Protocol :=
  match currentProtocol with
  | ProtoChoice.auto =>
    if Protocol.udp ∈ availableProtocols then Protocol.udp
    else if Protocol.webrtc ∈ availableProtocols then Protocol.webrtc
    else Protocol.http
  | ProtoChoice.proto p => p

/-- The `availableProtocols` list as `initialize` builds it: `webrtc` is
pushed first when its peer connection initialises, then `udp` when its
control channel initialises, and `http` is always pushed last. -/
def availableProtocolsInit (webrtcReady udpReady : Bool) : List Protocol :=
  (if webrtcReady then [Protocol.webrtc] else []) ++
    (if udpReady then [Protocol.udp] else []) ++ [Protocol.http]

/-- The control flow of `runSingleProtocolTest`, with the outcome of one
`runProtocolTest` call abstracted by the `fails` predicate.  Returns the
list of protocols attempted in order, and the overall outcome (the
protocol whose result is returned, or the uncaught error).  On failure
of the selected protocol, when `autoFallback` holds and the protocol is
not already `http`, exactly one fallback attempt is made, directly on
`http`; otherwise the error is rethrown. -/
def runSingleProtocolTest (autoFallback : Bool) (currentProtocol : ProtoChoice)
    (availableProtocols : List Protocol) (fails : Protocol → Bool) :
    List Protocol × Except String Protocol :=
  let protocol := getSelectedProtocol currentProtocol availableProtocols
  if fails protocol then
    if autoFallback ∧ protocol ≠ Protocol.http then
      if fails Protocol.http then
        ([protocol, Protocol.http], Except.error "http test failed")
      else ([protocol, Protocol.http], Except.ok Protocol.http)
    else ([protocol], Except.error "test failed")
  else ([protocol], Except.ok protocol)

/-- The loop of `runComparisonTest`: it iterates over
`availableProtocols` in order, runs each protocol inside a try/catch,
and stores per-protocol either the result or the caught error; no
iteration is skipped and no error escapes. -/
def runComparisonTest (webrtcReady udpReady : Bool)
    (outcome : Protocol → Except String ℚ) :
    List (Protocol × Except String ℚ) :=
  (availableProtocolsInit webrtcReady udpReady).map (fun p => (p, outcome p))

/-- Modelled from the spec: the fixed global priority order
`Datagram (udp) > MultiplexedUnreliable (webrtc) > Stream (http)`
restricted to the capability-available kinds. -/
def specPriorityOrder (available : List Protocol) : List Protocol :=
  [Protocol.udp, Protocol.webrtc, Protocol.http].filter (· ∈ available)

/-- The per-phase results object `runUDPTest` resolves with: each phase
is `none` when that phase threw and was caught. -/
structure UDPTestResults where
  ping : Option UDPSpeedTest.PingResults
  download : Option ℚ
  upload : Option ℚ
  deriving DecidableEq, Repr

/-- The body of `runUDPTest`: each of the three phases runs inside its
own try/catch, a failed phase leaves `null` in the results, and the
function always resolves with the results object. -/
def runUDPTest (pingReplies : List (Option ℚ))
    (downloadOutcome uploadOutcome : Except String ℚ) : UDPTestResults :=
  { ping := (UDPSpeedTest.startPingTest pingReplies).toOption
    download := downloadOutcome.toOption
    upload := uploadOutcome.toOption }

/-- The result object `runHTTPTest` resolves with. -/
structure HTTPTestResults where
  pingAverage : ℚ
  downloadSpeedMbps : ℚ
  uploadSpeedMbps : ℚ
  deriving DecidableEq, Repr

/-- The body of `runHTTPTest`: it ignores its environment entirely and
resolves with the hard-coded placeholder
`ping 50 ms, download 100 Mbps, upload 50 Mbps`. -/
def runHTTPTest {σ : Type} (_networkState : σ) : HTTPTestResults :=
  { pingAverage := 50, downloadSpeedMbps := 100, uploadSpeedMbps := 50 }

end MultiProtocolSpeedTest

/-- The spec formula for jitter, kept separate from the source embedding
for comparison: the mean of the absolute differences of consecutive
samples, written as a pointwise zip of the sample list with its tail. -/
def specJitterMean (s : List ℚ) : ℚ :=
  (List.zipWith (fun a b => |b - a|) s s.tail).sum / ((s.length : ℚ) - 1)

/-- When the elapsed time is nonzero, the chained JavaScript division in
the speed computation produces a finite rational. -/
theorem speedMbpsOf_eq_fin (bytes : ℕ) (T : ℚ) (h : T ≠ 0) :
    WebRTCSpeedTest.speedMbpsOf bytes T
      = JSNum.fin (((bytes : ℚ) * 8) / (T / 1000) / 1000000) := by
  have h1 : T / 1000 ≠ 0 := by
    intro h0
    exact h (by linarith [(div_eq_zero_iff.mp h0).resolve_right (by norm_num)])
  simp [WebRTCSpeedTest.speedMbpsOf, jsDiv, jsDivNum, h1]

/-- The accumulating ping-average fold is the list sum offset by the
initial accumulator. -/
theorem foldl_add_eq_sum (l : List ℚ) (a : ℚ) :
    l.foldl (fun x y => x + y) a = a + l.sum := by
  induction l generalizing a with
  | nil => simp
  | cons b t ih => simp [List.foldl_cons, ih, add_assoc]

/-- The consecutive-difference loop of `calculateJitter` agrees with the
zip of the sample list against its own tail. -/
theorem absDiffs_eq_zipWith (s : List ℚ) :
    UDPSpeedTest.absDiffs s = List.zipWith (fun a b => |b - a|) s s.tail := by
  induction s with
  | nil => rfl
  | cons a t ih =>
    cases t with
    | nil => rfl
    | cons b r => simp [UDPSpeedTest.absDiffs, ih]

/-- Claim C1, counterexample: for the empty sample list and for a
one-element sample list, both copies of `calculateJitter` return the
number `0`, so jitter is in fact reported as `0` there, never as an
undefined value. -/
theorem jitter_short_samples_zero_cex :
    UDPSpeedTest.calculateJitter [] = 0 ∧
    UDPSpeedTest.calculateJitter [20] = 0 ∧
    WebRTCSpeedTestIntegration.calculateJitter [] = 0 ∧
    WebRTCSpeedTestIntegration.calculateJitter [20] = 0 := by
  norm_num [UDPSpeedTest.calculateJitter, WebRTCSpeedTestIntegration.calculateJitter]

/-- Claim C1, amended: for every latency sample sequence of length 0 or
1, both copies of `calculateJitter` report jitter as the number `0`, not
as an undefined value. -/
theorem jitter_short_samples_zero (s : List ℚ) (h : s.length < 2) :
    UDPSpeedTest.calculateJitter s = 0 ∧
    WebRTCSpeedTestIntegration.calculateJitter s = 0 := by
  constructor
  · simp [UDPSpeedTest.calculateJitter, h]
  · simp [WebRTCSpeedTestIntegration.calculateJitter, h]

/-- Claim C1, witness: the amended statement evaluated on the
one-element sample list. -/
theorem jitter_short_samples_zero_witness :
    UDPSpeedTest.calculateJitter [20] = 0 ∧
    WebRTCSpeedTestIntegration.calculateJitter [20] = 0 :=
  jitter_short_samples_zero [20] (by decide)

/-- Claim C7: in Single mode with preference Auto, the selected protocol
follows the fixed priority udp, then webrtc, then http, over the
capability-available set. -/
theorem auto_selection_priority (available : List Protocol) :
    (Protocol.udp ∈ available →
      MultiProtocolSpeedTest.getSelectedProtocol MultiProtocolSpeedTest.ProtoChoice.auto
        available = Protocol.udp) ∧
    (Protocol.udp ∉ available → Protocol.webrtc ∈ available →
      MultiProtocolSpeedTest.getSelectedProtocol MultiProtocolSpeedTest.ProtoChoice.auto
        available = Protocol.webrtc) ∧
    (Protocol.udp ∉ available → Protocol.webrtc ∉ available →
      MultiProtocolSpeedTest.getSelectedProtocol MultiProtocolSpeedTest.ProtoChoice.auto
        available = Protocol.http) := by
  refine ⟨fun h1 => ?_, fun h1 h2 => ?_, fun h1 h2 => ?_⟩
  · simp [MultiProtocolSpeedTest.getSelectedProtocol, h1]
  · simp [MultiProtocolSpeedTest.getSelectedProtocol, h1, h2]
  · simp [MultiProtocolSpeedTest.getSelectedProtocol, h1, h2]

/-- Claim C7, witness: the three branches of the selection policy
evaluated on concrete availability sets. -/
theorem auto_selection_priority_witness :
    MultiProtocolSpeedTest.getSelectedProtocol MultiProtocolSpeedTest.ProtoChoice.auto
      [Protocol.udp, Protocol.webrtc, Protocol.http] = Protocol.udp ∧
    MultiProtocolSpeedTest.getSelectedProtocol MultiProtocolSpeedTest.ProtoChoice.auto
      [Protocol.webrtc, Protocol.http] = Protocol.webrtc ∧
    MultiProtocolSpeedTest.getSelectedProtocol MultiProtocolSpeedTest.ProtoChoice.auto
      [Protocol.http] = Protocol.http :=
  ⟨(auto_selection_priority _).1 (by decide),
    (auto_selection_priority _).2.1 (by decide) (by decide),
    (auto_selection_priority _).2.2 (by decide) (by decide)⟩

/-- Claim C9: `runHTTPTest` resolves with the same hard-coded result
regardless of the surrounding state: ping average 50 ms, download
100 Mbps, upload 50 Mbps; no measurement is performed. -/
theorem runHTTPTest_constant : ∀ (σ : Type) (s t : σ),
    MultiProtocolSpeedTest.runHTTPTest s = MultiProtocolSpeedTest.runHTTPTest t ∧
    MultiProtocolSpeedTest.runHTTPTest s
      = { pingAverage := 50, downloadSpeedMbps := 100, uploadSpeedMbps := 50 } :=
  fun _ _ _ => ⟨rfl, rfl⟩

/-- Payloads delivered while `isTestRunning` is false leave the state
untouched. -/
theorem handleIncomingData_not_running (d : ℕ) (s : WebRTCSpeedTest.State)
    (h : s.isTestRunning = false) : WebRTCSpeedTest.handleIncomingData d s = s := by
  simp [WebRTCSpeedTest.handleIncomingData, h]

/-- A fold of late payloads over a stopped state is the identity. -/
theorem foldl_handleIncomingData_not_running (ds : List ℕ) (s : WebRTCSpeedTest.State)
    (h : s.isTestRunning = false) :
    ds.foldl (fun st d => WebRTCSpeedTest.handleIncomingData d st) s = s := by
  induction ds with
  | nil => rfl
  | cons d t ih => rw [List.foldl_cons, handleIncomingData_not_running d s h, ih]

/-- Claim C10: after `stopDownloadTest` clears `isTestRunning`, any
sequence of further `handleIncomingData` calls leaves
`downloadStats.bytesReceived` and `downloadStats.packetsReceived`, and
indeed the whole recorded statistics, unchanged. -/
theorem post_stop_incoming_data_no_effect :
    ∀ (now : ℚ) (s : WebRTCSpeedTest.State) (ds : List ℕ),
    (ds.foldl (fun st d => WebRTCSpeedTest.handleIncomingData d st)
        (WebRTCSpeedTest.stopDownloadTest now s).1).downloadStats.bytesReceived
      = s.downloadStats.bytesReceived ∧
    (ds.foldl (fun st d => WebRTCSpeedTest.handleIncomingData d st)
        (WebRTCSpeedTest.stopDownloadTest now s).1).downloadStats.packetsReceived
      = s.downloadStats.packetsReceived ∧
    (ds.foldl (fun st d => WebRTCSpeedTest.handleIncomingData d st)
        (WebRTCSpeedTest.stopDownloadTest now s).1).downloadStats
      = s.downloadStats := by
  intro now s ds
  rw [foldl_handleIncomingData_not_running ds _ rfl]
  exact ⟨rfl, rfl, rfl⟩

/-- Claim C2, counterexample: with all three protocols
capability-available (in the order `initialize` builds) and udp failing,
Single mode attempts udp then http; webrtc is never attempted, contrary
to the claimed chain udp, webrtc, http. -/
theorem single_fallback_skips_webrtc_cex :
    (MultiProtocolSpeedTest.runSingleProtocolTest true
        MultiProtocolSpeedTest.ProtoChoice.auto
        [Protocol.webrtc, Protocol.udp, Protocol.http]
        (fun p => p == Protocol.udp)).1 = [Protocol.udp, Protocol.http] ∧
    Protocol.webrtc ∉ (MultiProtocolSpeedTest.runSingleProtocolTest true
        MultiProtocolSpeedTest.ProtoChoice.auto
        [Protocol.webrtc, Protocol.udp, Protocol.http]
        (fun p => p == Protocol.udp)).1 := by
  decide

/-- Claim C2, amended: in Single mode with `autoFallback` enabled, when
the selected protocol fails and is not already http, the engine makes
exactly one fallback attempt, directly on http — it does not walk the
priority chain, so a failing udp is followed by http, never by webrtc. -/
theorem single_fallback_direct_http (cur : MultiProtocolSpeedTest.ProtoChoice)
    (avail : List Protocol) (fails : Protocol → Bool)
    (h : fails (MultiProtocolSpeedTest.getSelectedProtocol cur avail) = true)
    (hn : MultiProtocolSpeedTest.getSelectedProtocol cur avail ≠ Protocol.http) :
    (MultiProtocolSpeedTest.runSingleProtocolTest true cur avail fails).1
      = [MultiProtocolSpeedTest.getSelectedProtocol cur avail, Protocol.http] := by
  unfold MultiProtocolSpeedTest.runSingleProtocolTest
  simp only [h, if_true, hn, ne_eq, not_false_eq_true, and_self, if_pos]
  split <;> rfl

/-- Claim C2, witness: the amended fallback behaviour on the concrete
situation of the original claim, udp selected and failing. -/
theorem single_fallback_direct_http_witness :
    (MultiProtocolSpeedTest.runSingleProtocolTest true
        MultiProtocolSpeedTest.ProtoChoice.auto
        [Protocol.webrtc, Protocol.udp, Protocol.http]
        (fun p => p == Protocol.udp)).1
      = [MultiProtocolSpeedTest.getSelectedProtocol
          MultiProtocolSpeedTest.ProtoChoice.auto
          [Protocol.webrtc, Protocol.udp, Protocol.http], Protocol.http] :=
  single_fallback_direct_http MultiProtocolSpeedTest.ProtoChoice.auto
    [Protocol.webrtc, Protocol.udp, Protocol.http]
    (fun p => p == Protocol.udp) (by decide) (by decide)

/-- Claim C6, counterexample: with both webrtc and udp
capability-available, the comparison loop attempts webrtc, udp, http —
the insertion order of `initialize` — which differs from the claimed
fixed priority order udp, webrtc, http. -/
theorem comparison_order_cex :
    (MultiProtocolSpeedTest.runComparisonTest true true
        (fun _ => Except.ok 0)).map Prod.fst
      = [Protocol.webrtc, Protocol.udp, Protocol.http] ∧
    MultiProtocolSpeedTest.specPriorityOrder
        (MultiProtocolSpeedTest.availableProtocolsInit true true)
      = [Protocol.udp, Protocol.webrtc, Protocol.http] ∧
    ([Protocol.webrtc, Protocol.udp, Protocol.http] : List Protocol)
      ≠ [Protocol.udp, Protocol.webrtc, Protocol.http] := by
  refine ⟨?_, by decide, by decide⟩
  simp [MultiProtocolSpeedTest.runComparisonTest,
    MultiProtocolSpeedTest.availableProtocolsInit]

/-- Claim C6, amended: the comparison loop attempts exactly the
capability-available kinds, each once (http always included, udp and
webrtc exactly when capability-available, no duplicates), but in the
insertion order of `initialize` — webrtc, then udp, then http — so with
both available the sequence is webrtc, udp, http rather than the fixed
global priority order. -/
theorem comparison_attempts_props (w u : Bool)
    (o : Protocol → Except String ℚ) :
    (MultiProtocolSpeedTest.runComparisonTest w u o).map Prod.fst
      = MultiProtocolSpeedTest.availableProtocolsInit w u ∧
    (MultiProtocolSpeedTest.availableProtocolsInit w u).Nodup ∧
    Protocol.http ∈ MultiProtocolSpeedTest.availableProtocolsInit w u ∧
    (Protocol.udp ∈ MultiProtocolSpeedTest.availableProtocolsInit w u ↔ u = true) ∧
    (Protocol.webrtc ∈ MultiProtocolSpeedTest.availableProtocolsInit w u ↔ w = true) ∧
    (w = true → u = true →
      MultiProtocolSpeedTest.availableProtocolsInit w u
        = [Protocol.webrtc, Protocol.udp, Protocol.http]) := by
  refine ⟨?_, ?_⟩
  · rw [MultiProtocolSpeedTest.runComparisonTest, List.map_map]
    have hid : (Prod.fst ∘ fun p => (p, o p)) = (id : Protocol → Protocol) := rfl
    rw [hid, List.map_id]
  · cases w <;> cases u <;>
      simp [MultiProtocolSpeedTest.availableProtocolsInit]

/-- Claim C6, witness: the amended statement evaluated with both
optional protocols capability-available. -/
theorem comparison_attempts_props_witness :
    (MultiProtocolSpeedTest.runComparisonTest true true
        (fun _ => Except.ok 0)).map Prod.fst
      = MultiProtocolSpeedTest.availableProtocolsInit true true ∧
    MultiProtocolSpeedTest.availableProtocolsInit true true
      = [Protocol.webrtc, Protocol.udp, Protocol.http] :=
  ⟨(comparison_attempts_props true true (fun _ => Except.ok 0)).1,
    (comparison_attempts_props true true (fun _ => Except.ok 0)).2.2.2.2.2 rfl rfl⟩

/-- Claim C5, counterexample: a ping phase in which all ten pings go
unanswered does not yield a terminal result — `startPingTest` throws. -/
theorem ping_zero_replies_throws_cex :
    UDPSpeedTest.startPingTest (List.replicate 10 none)
      = Except.error "No successful ping responses received" := rfl

/-- Claim C5, amended: a ping phase in which zero echo replies arrive
throws an error instead of producing a terminal PhaseResult; the error
is caught one level up, where `runUDPTest` wraps each phase in its own
try/catch, records `null` for the failed phase, and still resolves with
a terminal per-protocol result whose other phases are unaffected. -/
theorem udp_phase_errors_caught (replies : List (Option ℚ))
    (dl ul : Except String ℚ) (h : ∀ x ∈ replies, x = none) :
    UDPSpeedTest.startPingTest replies
      = Except.error "No successful ping responses received" ∧
    (MultiProtocolSpeedTest.runUDPTest replies dl ul).ping = none ∧
    (MultiProtocolSpeedTest.runUDPTest replies dl ul).download = dl.toOption ∧
    (MultiProtocolSpeedTest.runUDPTest replies dl ul).upload = ul.toOption := by
  have hnil : UDPSpeedTest.collectedSamples replies = [] := by
    simp only [UDPSpeedTest.collectedSamples, List.filterMap_eq_nil_iff, id_eq]
    exact h
  have hping : UDPSpeedTest.startPingTest replies
      = Except.error "No successful ping responses received" := by
    simp [UDPSpeedTest.startPingTest, hnil]
  have hp : (MultiProtocolSpeedTest.runUDPTest replies dl ul).ping
      = (UDPSpeedTest.startPingTest replies).toOption := rfl
  exact ⟨hping, by rw [hp, hping]; rfl, rfl, rfl⟩

/-- Claim C5, witness: the amended statement evaluated on two lost
pings, a successful download phase and a failing upload phase. -/
theorem udp_phase_errors_caught_witness :
    UDPSpeedTest.startPingTest [none, none]
      = Except.error "No successful ping responses received" ∧
    (MultiProtocolSpeedTest.runUDPTest [none, none]
        (Except.ok 42) (Except.error "upload failed")).ping = none ∧
    (MultiProtocolSpeedTest.runUDPTest [none, none]
        (Except.ok 42) (Except.error "upload failed")).download
      = (Except.ok (42 : ℚ) : Except String ℚ).toOption ∧
    (MultiProtocolSpeedTest.runUDPTest [none, none]
        (Except.ok 42) (Except.error "upload failed")).upload
      = (Except.error "upload failed" : Except String ℚ).toOption :=
  udp_phase_errors_caught [none, none] (Except.ok 42)
    (Except.error "upload failed") (by simp)

/-- Claim C4, counterexample: with zero elapsed time the stop handlers
do not report an undefined result; they perform the division, and the
report is `Infinity` for a positive byte count (`NaN` for zero bytes). -/
theorem throughput_zero_elapsed_cex :
    (WebRTCSpeedTest.stopDownloadTest 100
        ⟨true, ⟨100, 16384, 1⟩, ⟨0, 0, 0⟩⟩).2 = JSNum.posInf ∧
    (WebRTCSpeedTest.stopUploadTest 100
        ⟨true, ⟨0, 0, 0⟩, ⟨100, 16384, 1⟩⟩).2 = JSNum.posInf ∧
    WebRTCSpeedTest.speedMbpsOf 0 0 = JSNum.nan := by
  norm_num [WebRTCSpeedTest.stopDownloadTest, WebRTCSpeedTest.stopUploadTest,
    WebRTCSpeedTest.speedMbpsOf, jsDiv, jsDivNum]

/-- Claim C4, amended: there is no guard against zero elapsed time — the
stop handlers divide regardless, yielding `Infinity` or `NaN` at T = 0 —
but for every positive elapsed time the reported `speedMbps` of both
`stopDownloadTest` and `stopUploadTest` is a finite non-negative
rational. -/
theorem throughput_pos_elapsed_finite (s : WebRTCSpeedTest.State) (now : ℚ)
    (hd : 0 < now - s.downloadStats.startTime)
    (hu : 0 < now - s.uploadStats.startTime) :
    (∃ q, (WebRTCSpeedTest.stopDownloadTest now s).2 = JSNum.fin q ∧ 0 ≤ q) ∧
    (∃ q, (WebRTCSpeedTest.stopUploadTest now s).2 = JSNum.fin q ∧ 0 ≤ q) := by
  constructor
  · refine ⟨_, speedMbpsOf_eq_fin _ _ (ne_of_gt hd), ?_⟩
    have h1 : (0:ℚ) ≤ (now - s.downloadStats.startTime) / 1000 :=
      le_of_lt (div_pos hd (by norm_num))
    exact div_nonneg (div_nonneg (by positivity) h1) (by norm_num)
  · refine ⟨_, speedMbpsOf_eq_fin _ _ (ne_of_gt hu), ?_⟩
    have h1 : (0:ℚ) ≤ (now - s.uploadStats.startTime) / 1000 :=
      le_of_lt (div_pos hu (by norm_num))
    exact div_nonneg (div_nonneg (by positivity) h1) (by norm_num)

/-- Claim C4, witness: the amended statement evaluated on a state whose
download and upload phases both ran for a full second. -/
theorem throughput_pos_elapsed_finite_witness :
    (∃ q, (WebRTCSpeedTest.stopDownloadTest 1000
        ⟨true, ⟨0, 16384, 1⟩, ⟨500, 8192, 1⟩⟩).2 = JSNum.fin q ∧ 0 ≤ q) ∧
    (∃ q, (WebRTCSpeedTest.stopUploadTest 1000
        ⟨true, ⟨0, 16384, 1⟩, ⟨500, 8192, 1⟩⟩).2 = JSNum.fin q ∧ 0 ≤ q) :=
  throughput_pos_elapsed_finite ⟨true, ⟨0, 16384, 1⟩, ⟨500, 8192, 1⟩⟩ 1000
    (by norm_num) (by norm_num)

/-- Claim C3, counterexample: a download run requested at t = 0 whose
single megabyte payload arrives at t = 500 ms and which stops at
t = 1000 ms is reported at 8 Mbps (elapsed time anchored at the phase
request), while the throughput measured from the first byte would be
16 Mbps. -/
theorem throughput_anchor_cex :
    WebRTCSpeedTest.reportedDownloadMbps ⟨0, [(500, 1000000)], 1000⟩
      = JSNum.fin 8 ∧
    WebRTCSpeedTest.specFirstByteMbps ⟨0, [(500, 1000000)], 1000⟩ = some 16 ∧
    JSNum.fin 8 ≠ JSNum.fin 16 := by
  refine ⟨?_, ?_, by norm_num⟩
  · norm_num [WebRTCSpeedTest.reportedDownloadMbps, WebRTCSpeedTest.speedMbpsOf,
      WebRTCSpeedTest.totalBytes, jsDiv, jsDivNum]
  · norm_num [WebRTCSpeedTest.specFirstByteMbps, WebRTCSpeedTest.totalBytes]

/-- Claim C3, amended: for every finished download phase and every
finished upload phase with positive elapsed time the reported throughput
equals `(totalBytes * 8) / (elapsedSeconds * 1_000_000)` Mbps, where
`elapsedSeconds` is measured from the moment the phase was requested
(`startDownloadTest` resetting `downloadStats.startTime`, and
`startUploadTest` resetting `uploadStats.startTime` before the first
send), not from the first byte received or sent. -/
theorem reported_throughput_formula (r : WebRTCSpeedTest.DownloadRun)
    (u : WebRTCSpeedTest.UploadRun)
    (h : 0 < r.stopTime - r.requestTime)
    (hu : 0 < u.stopTime - u.requestTime) :
    WebRTCSpeedTest.reportedDownloadMbps r
      = JSNum.fin (((WebRTCSpeedTest.totalBytes r : ℚ) * 8)
          / (((r.stopTime - r.requestTime) / 1000) * 1000000)) ∧
    WebRTCSpeedTest.reportedUploadMbps u
      = JSNum.fin (((WebRTCSpeedTest.totalBytesSent u : ℚ) * 8)
          / (((u.stopTime - u.requestTime) / 1000) * 1000000)) := by
  constructor
  · rw [WebRTCSpeedTest.reportedDownloadMbps,
      speedMbpsOf_eq_fin _ _ (ne_of_gt h), div_div]
  · rw [WebRTCSpeedTest.reportedUploadMbps,
      speedMbpsOf_eq_fin _ _ (ne_of_gt hu), div_div]

/-- Claim C3, witness: the amended formula evaluated on the concrete
download run of the counterexample and on an upload run whose first
payload is sent 200 ms after the phase was requested. -/
theorem reported_throughput_formula_witness :
    WebRTCSpeedTest.reportedDownloadMbps ⟨0, [(500, 1000000)], 1000⟩
      = JSNum.fin
          (((WebRTCSpeedTest.totalBytes ⟨0, [(500, 1000000)], 1000⟩ : ℚ) * 8)
            / ((((1000 : ℚ) - 0) / 1000) * 1000000)) ∧
    WebRTCSpeedTest.reportedUploadMbps ⟨0, [(200, 16384)], 1000⟩
      = JSNum.fin
          (((WebRTCSpeedTest.totalBytesSent ⟨0, [(200, 16384)], 1000⟩ : ℚ) * 8)
            / ((((1000 : ℚ) - 0) / 1000) * 1000000)) :=
  reported_throughput_formula ⟨0, [(500, 1000000)], 1000⟩ ⟨0, [(200, 16384)], 1000⟩
    (by norm_num) (by norm_num)

/-- Claim C8: whenever at least two latency samples were collected, the
ping phase resolves with average equal to the sample sum divided by the
sample count and jitter equal to the mean of the absolute differences of
consecutive samples; moreover on the samples 20, 22, 19, 30 ms the
resolved average is 22.75 ms and the jitter is 16/3 ms. -/
theorem ping_average_and_jitter :
    (∀ replies : List (Option ℚ),
      2 ≤ (UDPSpeedTest.collectedSamples replies).length →
      ∃ r, UDPSpeedTest.startPingTest replies = Except.ok r ∧
        r.average = (UDPSpeedTest.collectedSamples replies).sum
            / ((UDPSpeedTest.collectedSamples replies).length : ℚ) ∧
        r.jitter = specJitterMean (UDPSpeedTest.collectedSamples replies)) ∧
    UDPSpeedTest.startPingTest [some 20, some 22, some 19, some 30]
      = Except.ok ⟨91 / 4, 16 / 3, [20, 22, 19, 30]⟩ := by
  constructor
  · intro replies h
    have h0 : 0 < (UDPSpeedTest.collectedSamples replies).length := by omega
    refine ⟨_, by rw [UDPSpeedTest.startPingTest, if_pos h0], ?_, ?_⟩
    · rw [foldl_add_eq_sum, zero_add]
    · rw [UDPSpeedTest.calculateJitter, if_neg (by omega), specJitterMean,
        absDiffs_eq_zipWith]
  · have h1 : |(22 : ℚ) - 20| = 2 := by
      rw [abs_of_nonneg (by norm_num)]; norm_num
    have h2 : |(19 : ℚ) - 22| = 3 := by
      rw [abs_of_nonpos (by norm_num)]; norm_num
    have h3 : |(30 : ℚ) - 19| = 11 := by
      rw [abs_of_nonneg (by norm_num)]; norm_num
    have habs : UDPSpeedTest.absDiffs [20, 22, 19, 30] = [2, 3, 11] := by
      simp [UDPSpeedTest.absDiffs, h1, h2, h3]
    have hdef : UDPSpeedTest.startPingTest [some 20, some 22, some 19, some 30]
        = Except.ok
          { average := ([20, 22, 19, 30] : List ℚ).foldl (fun a b => a + b) 0
              / ((([20, 22, 19, 30] : List ℚ).length : ℕ) : ℚ)
            jitter := UDPSpeedTest.calculateJitter [20, 22, 19, 30]
            samples := [20, 22, 19, 30] } := rfl
    rw [hdef]
    simp only [Except.ok.injEq, UDPSpeedTest.PingResults.mk.injEq]
    refine ⟨?_, ?_, trivial⟩
    · norm_num [List.foldl]
    · rw [UDPSpeedTest.calculateJitter, if_neg (by decide), habs]
      norm_num

/-- Claim C8, witness: the general statement instantiated on the sample
replies 20, 22, 19, 30 ms. -/
theorem ping_average_and_jitter_witness :
    ∃ r, UDPSpeedTest.startPingTest [some 20, some 22, some 19, some 30]
        = Except.ok r ∧
      r.average = (UDPSpeedTest.collectedSamples
            [some 20, some 22, some 19, some 30]).sum
          / ((UDPSpeedTest.collectedSamples
            [some 20, some 22, some 19, some 30]).length : ℚ) ∧
      r.jitter = specJitterMean (UDPSpeedTest.collectedSamples
          [some 20, some 22, some 19, some 30]) :=
  ping_average_and_jitter.1 [some 20, some 22, some 19, some 30] (by decide)
